import Mathlib

/-!
Shallow embedding of `lib/ansible/modules/network/f5/bigip_irule.py`, the
BIG-IP iRule state-reconciliation module.

The embedding models:
  * `Params` — the module parameters, with the raw `_values` entries for
    `content` and `src`, and the `content` / `src` / `src_content` properties
    of the `Parameters` class;
  * `Device` — the remote appliance state: a map from
    (REST namespace, name, partition) to the stored iRule body
    (`apiAnonymous`), plus two flags saying whether a create or a delete
    actually takes effect on the device (so the post-mutation verification
    branches are exercised);
  * `ApiCall` — the trace of SDK/REST calls a run issues;
  * the reconciliation procedure of `BaseManager`
    (`present` / `create` / `update` / `absent` / `remove`), instantiated by
    `LtmManager` and `GtmManager` which differ in the namespace string and in
    the arguments of `create_on_device`;
  * Python-level failures as values: `Err.f5` for `F5ModuleError`, and
    `Err.typeError` for an uncaught Python `TypeError` (as raised by
    `os.path.exists(None)`).
-/

namespace BigIpIrule

/-- Python `str.strip()` on a character list: drop whitespace from both
ends. -/
def stripChars (l : List Char) : List Char :=
  ((l.dropWhile Char.isWhitespace).reverse.dropWhile Char.isWhitespace).reverse

/-- Python `str.strip()`: remove leading and trailing whitespace. -/
def strip (s : String) : String := ⟨stripChars s.data⟩

/-- A failure escaping the module: an `F5ModuleError` with its message, or an
uncaught Python `TypeError` (e.g. from `os.path.exists(None)`). -/
inductive Err where
  | f5 (msg : String)
  | typeError (msg : String)
deriving DecidableEq, Repr

/-- Result of a fallible computation, mirroring Python control flow. -/
inductive Res (α : Type) where
  | ok (val : α)
  | err (e : Err)
deriving DecidableEq, Repr

/-- The module parameters. `content_value` and `src_value` are the raw
`_values` entries (None = `Option.none`); the other fields are always
strings (`name` and `module` are required, `partition` defaults to
"Common", `state` defaults to "present"). -/
structure Params where
  name : String
  partition : String
  module : String
  content_value : Option String
  src_value : Option String
  state : String
deriving DecidableEq, Repr

/-- The `src` property: returns `None` if unset, the raw value otherwise. -/
def Params.src (p : Params) : Option String := p.src_value

/-- The `src_content` property: `os.path.exists` on a `None` path raises a
Python `TypeError`; on a path the filesystem `fs` does not know, the property
raises `F5ModuleError("The specified 'src' was not found.")`; otherwise it
returns the file text. `fs` maps a path to the file contents when the file
exists. -/
def Params.src_content (fs : String → Option String) (p : Params) : Res String :=
  match p.src_value with
  | none => .err (.typeError "coercing to Unicode: need string, NoneType found")
  | some path =>
    match fs path with
    | none => .err (.f5 "The specified \x27src\x27 was not found.")
    | some txt => .ok txt

/-- The `content` property: the raw `content` value if set, else the text of
the `src` file; in either case `str(result).strip()` is applied. -/
def Params.content (fs : String → Option String) (p : Params) : Res String :=
  match p.content_value with
  | some c => .ok (strip c)
  | none =>
    match p.src_content fs with
    | .ok txt => .ok (strip txt)
    | .err e => .err e

/-- Python truthiness test `not x` for an optional string: `None` and the
empty string are falsy. -/
def optFalsy : Option String → Bool
  | none => true
  | some s => s = ""

/-- The remote appliance: `obj ns name partition` is the stored iRule body
(`apiAnonymous`) when the object exists in REST namespace `ns` ("ltm" or
"gtm"). The two flags say whether a create / delete call actually takes
effect, so that the post-mutation verification branches are observable. -/
structure Device where
  obj : String → String → String → Option String
  createTakesEffect : Bool
  deleteTakesEffect : Bool

/-- Overwrite (or erase, with `none`) the object at one key. -/
def Device.setObj (d : Device) (ns name partition : String) (v : Option String) : Device :=
  { d with
    obj := fun a b c =>
      if a = ns ∧ b = name ∧ c = partition then v else d.obj a b c }

/-- The `exists()` query of a manager. -/
def Device.objExists (d : Device) (ns name partition : String) : Bool :=
  (d.obj ns name partition).isSome

/-- One SDK/REST call issued during a run. `create` records the partition
argument as optional, because claim C8 is about whether the GTM create call
passes one. -/
inductive ApiCall where
  | existsCheck (ns name partition : String)
  | load (ns name partition : String)
  | create (ns name : String) (partition : Option String) (apiAnonymous : String)
  | update (ns name partition : String) (apiAnonymous : String)
  | delete (ns name partition : String)
deriving DecidableEq, Repr

/-- A call that changes remote state: create, update or delete (an
existence check or a load does not). -/
def ApiCall.isMutating : ApiCall → Bool
  | .create _ _ _ _ => true
  | .update _ _ _ _ => true
  | .delete _ _ _ => true
  | _ => false

/-- Recognize a create call. -/
def ApiCall.isCreate : ApiCall → Bool
  | .create _ _ _ _ => true
  | _ => false

/-- Recognize a delete call. -/
def ApiCall.isDelete : ApiCall → Bool
  | .delete _ _ _ => true
  | _ => false

/-- Re-address a call to another REST namespace, keeping everything else. -/
def ApiCall.retag (ns : String) : ApiCall → ApiCall
  | .existsCheck _ n pt => .existsCheck ns n pt
  | .load _ n pt => .load ns n pt
  | .create _ n pa c => .create ns n pa c
  | .update _ n pt c => .update ns n pt c
  | .delete _ n pt => .delete ns n pt

/-- Outcome of a run: the calls issued in order, the device afterwards, and
the `changed` flag or the error that escaped. -/
structure RunOut where
  calls : List ApiCall
  dev : Device
  res : Res Bool

/-- `BaseManager.create` with the content already resolved to `c`:
`_set_changed_options` (no API traffic), check-mode short-circuit, then
`create_on_device` (passing `partArg` as the partition argument) followed by
the existence re-check, raising "Failed to create the iRule" when the object
is still absent. -/
def createStep (checkMode : Bool) (ns : String) (partArg : Option String)
    (p : Params) (c : String) (d : Device) : RunOut :=
  if checkMode then ⟨[], d, .ok true⟩
  else
    let d2 := if d.createTakesEffect then d.setObj ns p.name p.partition (some c) else d
    let calls := [ApiCall.create ns p.name partArg c,
                  ApiCall.existsCheck ns p.name p.partition]
    if d2.objExists ns p.name p.partition then ⟨calls, d2, .ok true⟩
    else ⟨calls, d2, .err (.f5 "Failed to create the iRule")⟩

/-- `BaseManager.update`: `read_current_from_device` (a load), then
`_update_changed_options` comparing the wanted content `c` with the remote
content through the same stripping `content` property; on a difference, the
check-mode short-circuit and then `update_on_device` (a load plus the update
call carrying the changed content). -/
def updateStep (checkMode : Bool) (ns : String) (p : Params) (c : String)
    (d : Device) : RunOut :=
  let loadCall := ApiCall.load ns p.name p.partition
  let raw := (d.obj ns p.name p.partition).getD ""
  if c = strip raw then ⟨[loadCall], d, .ok false⟩
  else if checkMode then ⟨[loadCall], d, .ok true⟩
  else
    ⟨[loadCall, ApiCall.load ns p.name p.partition,
      ApiCall.update ns p.name p.partition c],
     d.setObj ns p.name p.partition (some c), .ok true⟩

/-- `BaseManager.remove`: check-mode short-circuit, then `remove_from_device`
(a load plus the delete call) followed by the existence re-check, raising
"Failed to delete the iRule" when the object still exists. -/
def removeStep (checkMode : Bool) (ns : String) (p : Params) (d : Device) : RunOut :=
  if checkMode then ⟨[], d, .ok true⟩
  else
    let d2 := if d.deleteTakesEffect then d.setObj ns p.name p.partition none else d
    let calls := [ApiCall.load ns p.name p.partition,
                  ApiCall.delete ns p.name p.partition,
                  ApiCall.existsCheck ns p.name p.partition]
    if d2.objExists ns p.name p.partition then
      ⟨calls, d2, .err (.f5 "Failed to delete the iRule")⟩
    else ⟨calls, d2, .ok true⟩

/-- `BaseManager.present`: evaluating `self.want.content` first (so a
resolution failure escapes here), then the guard
`if not self.want.content and not self.want.src`, then the existence check
dispatching to update or create. -/
def presentRun (fs : String → Option String) (checkMode : Bool) (ns : String)
    (partArg : Option String) (p : Params) (d : Device) : RunOut :=
  match Params.content fs p with
  | .err e => ⟨[], d, .err e⟩
  | .ok c =>
    if c = "" ∧ optFalsy p.src = true then
      ⟨[], d, .err (.f5 "Either \x27content\x27 or \x27src\x27 must be provided")⟩
    else
      let ex := ApiCall.existsCheck ns p.name p.partition
      if d.objExists ns p.name p.partition then
        let r := updateStep checkMode ns p c d
        ⟨ex :: r.calls, r.dev, r.res⟩
      else
        let r := createStep checkMode ns partArg p c d
        ⟨ex :: r.calls, r.dev, r.res⟩

/-- `BaseManager.absent`: existence check, then `remove` when the object
exists, else `changed = False` with no further traffic. -/
def absentRun (checkMode : Bool) (ns : String) (p : Params) (d : Device) : RunOut :=
  let ex := ApiCall.existsCheck ns p.name p.partition
  if d.objExists ns p.name p.partition then
    let r := removeStep checkMode ns p d
    ⟨ex :: r.calls, r.dev, r.res⟩
  else ⟨[ex], d, .ok false⟩

/-- `BaseManager.exec_module` for a manager addressing namespace `ns` and
passing `partArg` as the partition argument of its create call: branch on
`state`; any state other than "present"/"absent" leaves `changed = False`. -/
def managerExec (fs : String → Option String) (checkMode : Bool) (ns : String)
    (partArg : Option String) (p : Params) (d : Device) : RunOut :=
  if p.state = "present" then presentRun fs checkMode ns partArg p d
  else if p.state = "absent" then absentRun checkMode ns p d
  else ⟨[], d, .ok false⟩

/-- `ModuleManager.exec_module`: dispatch on the `module` parameter to
`LtmManager` / `GtmManager`; both create calls pass
`partition=self.want.partition` in the source. -/
def exec_module (fs : String → Option String) (checkMode : Bool)
    (p : Params) (d : Device) : RunOut :=
  if p.module = "ltm" then managerExec fs checkMode "ltm" (some p.partition) p d
  else if p.module = "gtm" then managerExec fs checkMode "gtm" (some p.partition) p d
  else ⟨[], d, .err (.f5 "An unknown iRule module type was specified")⟩

/-- Modelled from the spec: the GTM manager as the specification describes
it, whose create call "lacks an explicit partition argument" (the spec text
for module-type dispatch). Compared against the source's `GtmManager`,
which does pass `partition=self.want.partition` to `create`. -/
def specGtmExec (fs : String → Option String) (checkMode : Bool)
    (p : Params) (d : Device) : RunOut :=
  managerExec fs checkMode "gtm" none p d

/-- C6: the resolved desired content is the `content` parameter, or else the
text of the `src` file, whitespace-trimmed in both cases; when `src` is given
and the file does not exist, resolution fails with the "not found" error. -/
theorem C6_content_resolution :
    ∀ (fs : String → Option String) (p : Params) (t path txt : String),
      (p.content_value = some t → Params.content fs p = .ok (strip t)) ∧
      (p.content_value = none → p.src_value = some path → fs path = some txt →
        Params.content fs p = .ok (strip txt)) ∧
      (p.content_value = none → p.src_value = some path → fs path = none →
        Params.content fs p = .err (.f5 "The specified \x27src\x27 was not found.")) := by
  intro fs p t path txt
  refine ⟨fun hc => ?_, fun hc hs hf => ?_, fun hc hs hf => ?_⟩
  · simp [Params.content, hc]
  · simp [Params.content, Params.src_content, hc, hs, hf]
  · simp [Params.content, Params.src_content, hc, hs, hf]

/-- Witness for C6 at concrete inputs: inline content is trimmed, file
content is trimmed, and a missing file gives the "not found" error. -/
theorem C6_content_resolution_witness :
    Params.content (fun _ => none)
      ⟨"MyiRule", "Common", "ltm", some " when X ", none, "present"⟩ = .ok "when X" ∧
    Params.content (fun q => if q = "irule.tcl" then some " when Y " else none)
      ⟨"MyiRule", "Common", "ltm", none, some "irule.tcl", "present"⟩ = .ok "when Y" ∧
    Params.content (fun _ => none)
      ⟨"MyiRule", "Common", "ltm", none, some "irule.tcl", "present"⟩ =
      .err (.f5 "The specified \x27src\x27 was not found.") :=
  ⟨(C6_content_resolution (fun _ => none)
      ⟨"MyiRule", "Common", "ltm", some " when X ", none, "present"⟩ " when X " "" "").1 rfl,
   (C6_content_resolution (fun q => if q = "irule.tcl" then some " when Y " else none)
      ⟨"MyiRule", "Common", "ltm", none, some "irule.tcl", "present"⟩ "" "irule.tcl" " when Y ").2.1
      rfl rfl (by decide),
   (C6_content_resolution (fun _ => none)
      ⟨"MyiRule", "Common", "ltm", none, some "irule.tcl", "present"⟩ "" "irule.tcl" "").2.2
      rfl rfl rfl⟩

/-- C7: with state=present and neither `content` nor `src` supplied, the run
fails before any API call, but with an uncaught Python `TypeError` coming
from `os.path.exists(None)` inside the `content` property, not with the
intended validation error "Either 'content' or 'src' must be provided"
(whose raise statement is unreachable for this input). -/
theorem C7_missing_source_crash :
    (exec_module (fun _ => none) false
        ⟨"MyiRule", "Common", "ltm", none, none, "present"⟩
        ⟨fun _ _ _ => none, true, true⟩).res =
      .err (.typeError "coercing to Unicode: need string, NoneType found") ∧
    (exec_module (fun _ => none) false
        ⟨"MyiRule", "Common", "ltm", none, none, "present"⟩
        ⟨fun _ _ _ => none, true, true⟩).calls = [] ∧
    (Res.err (Err.typeError "coercing to Unicode: need string, NoneType found") : Res Bool) ≠
      .err (.f5 "Either \x27content\x27 or \x27src\x27 must be provided") := by
  refine ⟨by decide, by decide, by decide⟩

/-- C1: with state=present, resolved content `c`, and no remote object at
(module, name, partition), a real (non-check-mode) run on a device where
creates take effect issues exactly one create call, carrying the name, the
partition and `c`, and reports changed=true. -/
theorem C1_create_exactly_once :
    ∀ (fs : String → Option String) (p : Params) (d : Device) (c : String),
      p.state = "present" →
      (p.module = "ltm" ∨ p.module = "gtm") →
      Params.content fs p = .ok c →
      ¬(c = "" ∧ optFalsy p.src = true) →
      d.obj p.module p.name p.partition = none →
      d.createTakesEffect = true →
      ((exec_module fs false p d).calls.filter ApiCall.isCreate =
         [ApiCall.create p.module p.name (some p.partition) c] ∧
       (exec_module fs false p d).res = .ok true) := by
  intro fs p d c hstate hmod hc hguard habs heff
  rcases hmod with hm | hm <;> rw [hm] at habs <;>
    simp [exec_module, managerExec, presentRun, createStep,
      Device.objExists, Device.setObj, hm, hstate, hc, hguard, habs, heff,
      ApiCall.isCreate]

/-- Witness for C1 at a concrete input: one create call with the trimmed
content, changed=true. -/
theorem C1_create_exactly_once_witness :
    (exec_module (fun _ => none) false
        ⟨"MyiRule", "Common", "ltm", some " when X ", none, "present"⟩
        ⟨fun _ _ _ => none, true, true⟩).calls.filter ApiCall.isCreate =
      [ApiCall.create "ltm" "MyiRule" (some "Common") "when X"] ∧
    (exec_module (fun _ => none) false
        ⟨"MyiRule", "Common", "ltm", some " when X ", none, "present"⟩
        ⟨fun _ _ _ => none, true, true⟩).res = .ok true :=
  C1_create_exactly_once (fun _ => none)
    ⟨"MyiRule", "Common", "ltm", some " when X ", none, "present"⟩
    ⟨fun _ _ _ => none, true, true⟩ "when X"
    rfl (Or.inl rfl) (by decide) (by decide) rfl rfl

/-- C2: with state=present and an existing remote object, when the remote
content (as the module reads it, through the stripping `content` property)
equals the resolved desired content, no mutating call is issued and
changed=false; when they differ, a real run issues exactly one update call
carrying the new desired content and reports changed=true. -/
theorem C2_update_exactly_when_different :
    ∀ (fs : String → Option String) (p : Params) (d : Device) (c raw : String),
      p.state = "present" →
      (p.module = "ltm" ∨ p.module = "gtm") →
      Params.content fs p = .ok c →
      ¬(c = "" ∧ optFalsy p.src = true) →
      d.obj p.module p.name p.partition = some raw →
      ((strip raw = c →
         (exec_module fs false p d).calls.filter ApiCall.isMutating = [] ∧
         (exec_module fs false p d).res = .ok false) ∧
       (strip raw ≠ c →
         (exec_module fs false p d).calls.filter ApiCall.isMutating =
           [ApiCall.update p.module p.name p.partition c] ∧
         (exec_module fs false p d).res = .ok true)) := by
  intro fs p d c raw hstate hmod hc hguard hobj
  rcases hmod with hm | hm <;> rw [hm] at hobj <;>
    refine ⟨fun heq2 => ?_, fun hne2 => ?_⟩
  · subst heq2
    simp [exec_module, managerExec, presentRun, updateStep,
      Device.objExists, Device.setObj, hm, hstate, hc, hguard, hobj,
      ApiCall.isMutating]
  · simp [exec_module, managerExec, presentRun, updateStep,
      Device.objExists, Device.setObj, hm, hstate, hc, hguard, hobj,
      ApiCall.isMutating, Ne.symm hne2]
  · subst heq2
    simp [exec_module, managerExec, presentRun, updateStep,
      Device.objExists, Device.setObj, hm, hstate, hc, hguard, hobj,
      ApiCall.isMutating]
  · simp [exec_module, managerExec, presentRun, updateStep,
      Device.objExists, Device.setObj, hm, hstate, hc, hguard, hobj,
      ApiCall.isMutating, Ne.symm hne2]

/-- Witness for C2 at concrete inputs: equal trimmed content gives no
mutating call and changed=false; differing content gives exactly the one
update call and changed=true. -/
theorem C2_update_exactly_when_different_witness :
    ((exec_module (fun _ => none) false
        ⟨"MyiRule", "Common", "ltm", some "when X", none, "present"⟩
        ⟨fun _ _ _ => some "when X", true, true⟩).calls.filter ApiCall.isMutating = [] ∧
     (exec_module (fun _ => none) false
        ⟨"MyiRule", "Common", "ltm", some "when X", none, "present"⟩
        ⟨fun _ _ _ => some "when X", true, true⟩).res = .ok false) ∧
    ((exec_module (fun _ => none) false
        ⟨"MyiRule", "Common", "ltm", some "when Y", none, "present"⟩
        ⟨fun _ _ _ => some "when X", true, true⟩).calls.filter ApiCall.isMutating =
       [ApiCall.update "ltm" "MyiRule" "Common" "when Y"] ∧
     (exec_module (fun _ => none) false
        ⟨"MyiRule", "Common", "ltm", some "when Y", none, "present"⟩
        ⟨fun _ _ _ => some "when X", true, true⟩).res = .ok true) :=
  ⟨(C2_update_exactly_when_different (fun _ => none)
      ⟨"MyiRule", "Common", "ltm", some "when X", none, "present"⟩
      ⟨fun _ _ _ => some "when X", true, true⟩ "when X" "when X"
      rfl (Or.inl rfl) (by decide) (by decide) rfl).1 (by decide),
   (C2_update_exactly_when_different (fun _ => none)
      ⟨"MyiRule", "Common", "ltm", some "when Y", none, "present"⟩
      ⟨fun _ _ _ => some "when X", true, true⟩ "when Y" "when X"
      rfl (Or.inl rfl) (by decide) (by decide) rfl).2 (by decide)⟩

/-- C3: with state=absent, a real run on a device where deletes take effect
issues, when the object exists, the existence check, a load, exactly one
delete call and the verification re-check, reporting changed=true; when the
object does not exist it issues nothing beyond the existence check and
reports changed=false. -/
theorem C3_absent_logic :
    ∀ (fs : String → Option String) (p : Params) (d : Device) (raw : String),
      p.state = "absent" →
      (p.module = "ltm" ∨ p.module = "gtm") →
      d.deleteTakesEffect = true →
      ((d.obj p.module p.name p.partition = some raw →
         (exec_module fs false p d).calls =
           [ApiCall.existsCheck p.module p.name p.partition,
            ApiCall.load p.module p.name p.partition,
            ApiCall.delete p.module p.name p.partition,
            ApiCall.existsCheck p.module p.name p.partition] ∧
         (exec_module fs false p d).calls.filter ApiCall.isMutating =
           [ApiCall.delete p.module p.name p.partition] ∧
         (exec_module fs false p d).res = .ok true) ∧
       (d.obj p.module p.name p.partition = none →
         (exec_module fs false p d).calls =
           [ApiCall.existsCheck p.module p.name p.partition] ∧
         (exec_module fs false p d).res = .ok false)) := by
  intro fs p d raw hstate hmod heff
  rcases hmod with hm | hm <;>
    refine ⟨fun hobj => ?_, fun hobj => ?_⟩ <;> rw [hm] at hobj <;>
    simp [exec_module, managerExec, absentRun, removeStep,
      Device.objExists, Device.setObj, hm, hstate, hobj, heff,
      ApiCall.isMutating]

/-- Witness for C3 at concrete inputs: delete of an existing object, and a
no-op when the object is absent. -/
theorem C3_absent_logic_witness :
    ((exec_module (fun _ => none) false
        ⟨"MyiRule", "Common", "gtm", none, none, "absent"⟩
        ⟨fun _ _ _ => some "when X", true, true⟩).calls =
       [ApiCall.existsCheck "gtm" "MyiRule" "Common",
        ApiCall.load "gtm" "MyiRule" "Common",
        ApiCall.delete "gtm" "MyiRule" "Common",
        ApiCall.existsCheck "gtm" "MyiRule" "Common"] ∧
     (exec_module (fun _ => none) false
        ⟨"MyiRule", "Common", "gtm", none, none, "absent"⟩
        ⟨fun _ _ _ => some "when X", true, true⟩).calls.filter ApiCall.isMutating =
       [ApiCall.delete "gtm" "MyiRule" "Common"] ∧
     (exec_module (fun _ => none) false
        ⟨"MyiRule", "Common", "gtm", none, none, "absent"⟩
        ⟨fun _ _ _ => some "when X", true, true⟩).res = .ok true) ∧
    ((exec_module (fun _ => none) false
        ⟨"MyiRule", "Common", "gtm", none, none, "absent"⟩
        ⟨fun _ _ _ => none, true, true⟩).calls =
       [ApiCall.existsCheck "gtm" "MyiRule" "Common"] ∧
     (exec_module (fun _ => none) false
        ⟨"MyiRule", "Common", "gtm", none, none, "absent"⟩
        ⟨fun _ _ _ => none, true, true⟩).res = .ok false) :=
  ⟨(C3_absent_logic (fun _ => none)
      ⟨"MyiRule", "Common", "gtm", none, none, "absent"⟩
      ⟨fun _ _ _ => some "when X", true, true⟩ "when X"
      rfl (Or.inr rfl) rfl).1 rfl,
   (C3_absent_logic (fun _ => none)
      ⟨"MyiRule", "Common", "gtm", none, none, "absent"⟩
      ⟨fun _ _ _ => none, true, true⟩ "when X"
      rfl (Or.inr rfl) rfl).2 rfl⟩

/-- C4: a real run raises the create-verification error exactly when the
create did not take effect, and the delete-verification error exactly when
the delete did not take effect, and the two messages are distinct. -/
theorem C4_postmutation_verification :
    ∀ (fs : String → Option String) (p : Params) (d : Device) (c raw : String),
      ((p.state = "present" → (p.module = "ltm" ∨ p.module = "gtm") →
         Params.content fs p = .ok c → ¬(c = "" ∧ optFalsy p.src = true) →
         d.obj p.module p.name p.partition = none →
         ((exec_module fs false p d).res = .err (.f5 "Failed to create the iRule") ↔
           d.createTakesEffect = false)) ∧
       (p.state = "absent" → (p.module = "ltm" ∨ p.module = "gtm") →
         d.obj p.module p.name p.partition = some raw →
         ((exec_module fs false p d).res = .err (.f5 "Failed to delete the iRule") ↔
           d.deleteTakesEffect = false)) ∧
       ("Failed to create the iRule" : String) ≠ "Failed to delete the iRule") := by
  intro fs p d c raw
  refine ⟨fun hstate hmod hc hguard hobj => ?_, fun hstate hmod hobj => ?_, by decide⟩
  · rcases hmod with hm | hm <;> rw [hm] at hobj <;>
      cases hce : d.createTakesEffect <;>
      simp [exec_module, managerExec, presentRun, createStep,
        Device.objExists, Device.setObj, hm, hstate, hc, hguard, hobj, hce]
  · rcases hmod with hm | hm <;> rw [hm] at hobj <;>
      cases hde : d.deleteTakesEffect <;>
      simp [exec_module, managerExec, absentRun, removeStep,
        Device.objExists, Device.setObj, hm, hstate, hobj, hde]

/-- Witness for C4 at concrete inputs: an ineffective create raises the
create message, an effective create does not; an ineffective delete raises
the delete message, an effective delete does not. -/
theorem C4_postmutation_verification_witness :
    ((exec_module (fun _ => none) false
        ⟨"MyiRule", "Common", "ltm", some "when X", none, "present"⟩
        ⟨fun _ _ _ => none, false, true⟩).res =
       .err (.f5 "Failed to create the iRule") ↔ (false : Bool) = false) ∧
    ((exec_module (fun _ => none) false
        ⟨"MyiRule", "Common", "ltm", none, none, "absent"⟩
        ⟨fun _ _ _ => some "when X", true, false⟩).res =
       .err (.f5 "Failed to delete the iRule") ↔ (false : Bool) = false) :=
  ⟨(C4_postmutation_verification (fun _ => none)
      ⟨"MyiRule", "Common", "ltm", some "when X", none, "present"⟩
      ⟨fun _ _ _ => none, false, true⟩ "when X" "").1
      rfl (Or.inl rfl) (by decide) (by decide) rfl,
   (C4_postmutation_verification (fun _ => none)
      ⟨"MyiRule", "Common", "ltm", none, none, "absent"⟩
      ⟨fun _ _ _ => some "when X", true, false⟩ "" "when X").2.1
      rfl (Or.inl rfl) rfl⟩

/-- C9: the update decision is insensitive to leading and trailing
whitespace on both sides: with state=present, an inline content parameter
and an existing remote object whose stored body equals it after trimming
each side, no mutating call is issued and changed=false, in any mode. -/
theorem C9_trim_insensitive :
    ∀ (fs : String → Option String) (cm : Bool) (p : Params) (d : Device) (t raw : String),
      p.state = "present" →
      (p.module = "ltm" ∨ p.module = "gtm") →
      p.content_value = some t →
      strip t ≠ "" →
      d.obj p.module p.name p.partition = some raw →
      strip t = strip raw →
      ((exec_module fs cm p d).calls.filter ApiCall.isMutating = [] ∧
       (exec_module fs cm p d).res = .ok false) := by
  intro fs cm p d t raw hstate hmod hcv hne hobj heq2
  have hc : Params.content fs p = .ok (strip t) := by simp [Params.content, hcv]
  rw [heq2] at hne
  rcases hmod with hm | hm <;> rw [hm] at hobj <;>
    simp [exec_module, managerExec, presentRun, updateStep,
      Device.objExists, Device.setObj, hm, hstate, hc, hne, hobj,
      ApiCall.isMutating, heq2]

/-- Witness for C9 at a concrete input whose untrimmed desired and remote
strings differ but trim to the same text. -/
theorem C9_trim_insensitive_witness :
    ("  when X  " : String) ≠ "when X \n" ∧
    ((exec_module (fun _ => none) false
        ⟨"MyiRule", "Common", "ltm", some "  when X  ", none, "present"⟩
        ⟨fun _ _ _ => some "when X \n", true, true⟩).calls.filter ApiCall.isMutating = [] ∧
     (exec_module (fun _ => none) false
        ⟨"MyiRule", "Common", "ltm", some "  when X  ", none, "present"⟩
        ⟨fun _ _ _ => some "when X \n", true, true⟩).res = .ok false) :=
  ⟨by decide,
   C9_trim_insensitive (fun _ => none) false
     ⟨"MyiRule", "Common", "ltm", some "  when X  ", none, "present"⟩
     ⟨fun _ _ _ => some "when X \n", true, true⟩ "  when X  " "when X \n"
     rfl (Or.inl rfl) rfl (by decide) rfl (by decide)⟩

/-- C10: with state=absent the content and src parameters are never
resolved: the run is the same for any filesystem and any content/src
values, never fails with a TypeError or with the missing-content-source
validation error, and (when deletes take effect) reports changed equal to
the prior existence of the remote object. -/
theorem C10_absent_ignores_content :
    ∀ (fs1 fs2 : String → Option String) (cm : Bool) (n pt md : String)
      (c1 s1 c2 s2 : Option String) (d : Device),
      (md = "ltm" ∨ md = "gtm") →
      ((exec_module fs1 cm ⟨n, pt, md, c1, s1, "absent"⟩ d =
         exec_module fs2 cm ⟨n, pt, md, c2, s2, "absent"⟩ d) ∧
       (∀ m : String,
         (exec_module fs1 cm ⟨n, pt, md, c1, s1, "absent"⟩ d).res ≠ .err (.typeError m)) ∧
       ((exec_module fs1 cm ⟨n, pt, md, c1, s1, "absent"⟩ d).res ≠
         .err (.f5 "Either \x27content\x27 or \x27src\x27 must be provided")) ∧
       (d.deleteTakesEffect = true →
         (exec_module fs1 cm ⟨n, pt, md, c1, s1, "absent"⟩ d).res =
           .ok ((d.obj md n pt).isSome))) := by
  intro fs1 fs2 cm n pt md c1 s1 c2 s2 d hmod
  rcases hmod with hm | hm <;> subst hm <;>
    refine ⟨?_, ?_, ?_, fun hde => ?_⟩ <;>
    rcases hobj : d.obj "ltm" n pt with _ | raw <;>
    rcases hobj2 : d.obj "gtm" n pt with _ | raw2 <;>
    cases cm <;>
    cases hde2 : d.deleteTakesEffect <;>
    simp_all [exec_module, managerExec, absentRun, removeStep,
      Device.objExists, Device.setObj]

/-- Helper for C5: per manager, a check-mode run issues no mutating call,
and (when mutations take effect on the device) its changed/error result
equals the real run's result. -/
theorem checkMode_aux :
    ∀ (fs : String → Option String) (ns : String) (pa : Option String)
      (p : Params) (d : Device),
      ((managerExec fs true ns pa p d).calls.filter ApiCall.isMutating = []) ∧
      (d.createTakesEffect = true → d.deleteTakesEffect = true →
        (managerExec fs true ns pa p d).res = (managerExec fs false ns pa p d).res) := by
  intro fs ns pa p d
  by_cases hst1 : p.state = "present"
  · rcases hcc : Params.content fs p with c | e
    · by_cases hg : (c = "" ∧ optFalsy p.src = true)
      · constructor
        · simp [managerExec, presentRun, hst1, hcc, hg]
        · intro hce hde
          simp [managerExec, presentRun, hst1, hcc, hg]
      · rcases hobj : d.obj ns p.name p.partition with _ | raw
        · constructor
          · simp [managerExec, presentRun, createStep, Device.objExists,
              hst1, hcc, hg, hobj, ApiCall.isMutating]
          · intro hce hde
            simp [managerExec, presentRun, createStep, Device.objExists,
              Device.setObj, hst1, hcc, hg, hobj, hce]
        · by_cases heqc : c = strip raw
          · rw [heqc] at hg
            constructor
            · simp [managerExec, presentRun, updateStep, Device.objExists,
                hst1, hcc, hg, hobj, heqc, ApiCall.isMutating]
            · intro hce hde
              simp [managerExec, presentRun, updateStep, Device.objExists,
                hst1, hcc, hg, hobj, heqc]
          · constructor
            · simp [managerExec, presentRun, updateStep, Device.objExists,
                hst1, hcc, hg, hobj, heqc, ApiCall.isMutating]
            · intro hce hde
              simp [managerExec, presentRun, updateStep, Device.objExists,
                hst1, hcc, hg, hobj, heqc]
    · constructor
      · simp [managerExec, presentRun, hst1, hcc, ApiCall.isMutating]
      · intro hce hde
        simp [managerExec, presentRun, hst1, hcc]
  · by_cases hst2 : p.state = "absent"
    · rcases hobj : d.obj ns p.name p.partition with _ | raw
      · constructor
        · simp [managerExec, absentRun, Device.objExists, hst1, hst2, hobj,
            ApiCall.isMutating]
        · intro hce hde
          simp [managerExec, absentRun, Device.objExists, hst1, hst2, hobj]
      · constructor
        · simp [managerExec, absentRun, removeStep, Device.objExists, hst1,
            hst2, hobj, ApiCall.isMutating]
        · intro hce hde
          simp [managerExec, absentRun, removeStep, Device.objExists,
            Device.setObj, hst1, hst2, hobj, hde]
    · constructor
      · simp [managerExec, hst1, hst2, ApiCall.isMutating]
      · intro hce hde
        simp [managerExec, hst1, hst2]

/-- C5: in check (dry-run) mode no mutating call is ever issued, whatever
branch the reconciliation takes, and the result equals the one a real run
(on a device where mutations take effect) would produce. -/
theorem C5_check_mode :
    ∀ (fs : String → Option String) (p : Params) (d : Device),
      ((exec_module fs true p d).calls.filter ApiCall.isMutating = []) ∧
      (d.createTakesEffect = true → d.deleteTakesEffect = true →
        (exec_module fs true p d).res = (exec_module fs false p d).res) := by
  intro fs p d
  unfold exec_module
  by_cases h1 : p.module = "ltm"
  · rw [if_pos h1, if_pos h1]
    exact checkMode_aux fs "ltm" (some p.partition) p d
  · by_cases h2 : p.module = "gtm"
    · rw [if_neg h1, if_pos h2, if_neg h1, if_pos h2]
      exact checkMode_aux fs "gtm" (some p.partition) p d
    · rw [if_neg h1, if_neg h2, if_neg h1, if_neg h2]
      exact ⟨rfl, fun _ _ => rfl⟩

/-- Witness for C5 at a concrete input: a check-mode create decision issues
no mutating call and reports the same result as the real run. -/
theorem C5_check_mode_witness :
    ((exec_module (fun _ => none) true
        ⟨"MyiRule", "Common", "ltm", some "when X", none, "present"⟩
        ⟨fun _ _ _ => none, true, true⟩).calls.filter ApiCall.isMutating = []) ∧
    ((exec_module (fun _ => none) true
        ⟨"MyiRule", "Common", "ltm", some "when X", none, "present"⟩
        ⟨fun _ _ _ => none, true, true⟩).res =
      (exec_module (fun _ => none) false
        ⟨"MyiRule", "Common", "ltm", some "when X", none, "present"⟩
        ⟨fun _ _ _ => none, true, true⟩).res) :=
  ⟨(C5_check_mode (fun _ => none)
      ⟨"MyiRule", "Common", "ltm", some "when X", none, "present"⟩
      ⟨fun _ _ _ => none, true, true⟩).1,
   (C5_check_mode (fun _ => none)
      ⟨"MyiRule", "Common", "ltm", some "when X", none, "present"⟩
      ⟨fun _ _ _ => none, true, true⟩).2 rfl rfl⟩
/-- Helper for C8: two managers differing only in REST namespace and in the
`module` parameter value, run against namespace-independent remote state,
produce the same result and the same call sequence up to re-addressing the
namespace. -/
theorem managerExec_ns_retag :
    ∀ (fs : String → Option String) (cm : Bool) (ns1 ns2 : String) (pa : Option String)
      (n pt md1 md2 st : String) (cv sv : Option String)
      (obj0 : String → String → Option String) (ce de : Bool),
      ((managerExec fs cm ns2 pa ⟨n, pt, md2, cv, sv, st⟩
          ⟨fun _ a b => obj0 a b, ce, de⟩).res =
        (managerExec fs cm ns1 pa ⟨n, pt, md1, cv, sv, st⟩
          ⟨fun _ a b => obj0 a b, ce, de⟩).res) ∧
      ((managerExec fs cm ns2 pa ⟨n, pt, md2, cv, sv, st⟩
          ⟨fun _ a b => obj0 a b, ce, de⟩).calls =
        (managerExec fs cm ns1 pa ⟨n, pt, md1, cv, sv, st⟩
          ⟨fun _ a b => obj0 a b, ce, de⟩).calls.map (ApiCall.retag ns2)) := by
  intro fs cm ns1 ns2 pa n pt md1 md2 st cv sv obj0 ce de
  by_cases hst1 : st = "present"
  · subst hst1
    rcases hc2 : Params.content fs ⟨n, pt, md2, cv, sv, "present"⟩ with c | e
    · have hcc : Params.content fs ⟨n, pt, md1, cv, sv, "present"⟩ = .ok c := hc2
      by_cases hg : (c = "" ∧ optFalsy sv = true)
      · simp [managerExec, presentRun, Params.src, hc2, hcc, hg]
      · rcases hobj : obj0 n pt with _ | raw
        · cases cm
          · cases ce <;>
              simp [managerExec, presentRun, createStep, Device.objExists,
                Device.setObj, Params.src, hc2, hcc, hg, hobj, ApiCall.retag]
          · simp [managerExec, presentRun, createStep, Device.objExists,
              Params.src, hc2, hcc, hg, hobj, ApiCall.retag]
        · by_cases heqc : c = strip raw
          · rw [heqc] at hg
            simp [managerExec, presentRun, updateStep, Device.objExists,
              Params.src, hc2, hcc, hg, hobj, heqc, ApiCall.retag]
          · cases cm <;>
              simp [managerExec, presentRun, updateStep, Device.objExists,
                Device.setObj, Params.src, hc2, hcc, hg, hobj, heqc,
                ApiCall.retag]
    · have hcc : Params.content fs ⟨n, pt, md1, cv, sv, "present"⟩ = .err e := hc2
      simp [managerExec, presentRun, hc2, hcc]
  · by_cases hst2 : st = "absent"
    · subst hst2
      rcases hobj : obj0 n pt with _ | raw
      · simp [managerExec, absentRun, Device.objExists, hst1, hobj,
          ApiCall.retag]
      · cases cm
        · cases de <;>
            simp [managerExec, absentRun, removeStep, Device.objExists,
              Device.setObj, hst1, hobj, ApiCall.retag]
        · simp [managerExec, absentRun, removeStep, Device.objExists, hst1,
            hobj, ApiCall.retag]
    · simp [managerExec, hst1, hst2]
/-- C8 (amended): the LTM and GTM managers implement functionally identical
reconciliation logic: on namespace-independent remote state, both take the
same decision branch, report the same changed/error result, and issue the
same call sequence up to the REST namespace tag — in particular the same
create call, which in both managers carries the explicit partition
argument. -/
theorem C8_ltm_gtm_functionally_identical :
    ∀ (fs : String → Option String) (cm : Bool) (n pt st : String)
      (cv sv : Option String) (obj0 : String → String → Option String) (ce de : Bool),
      ((exec_module fs cm ⟨n, pt, "gtm", cv, sv, st⟩
          ⟨fun _ a b => obj0 a b, ce, de⟩).res =
        (exec_module fs cm ⟨n, pt, "ltm", cv, sv, st⟩
          ⟨fun _ a b => obj0 a b, ce, de⟩).res) ∧
      ((exec_module fs cm ⟨n, pt, "gtm", cv, sv, st⟩
          ⟨fun _ a b => obj0 a b, ce, de⟩).calls =
        (exec_module fs cm ⟨n, pt, "ltm", cv, sv, st⟩
          ⟨fun _ a b => obj0 a b, ce, de⟩).calls.map (ApiCall.retag "gtm")) := by
  intro fs cm n pt st cv sv obj0 ce de
  have h := managerExec_ns_retag fs cm "ltm" "gtm" (some pt) n pt "ltm" "gtm" st cv sv obj0 ce de
  simpa [exec_module] using h

/-- Counterexample to C8 as stated: the claim says the GTM create call lacks
an explicit partition argument, but at a concrete input the source GTM
manager's create call carries `some "Common"` as its partition argument,
while `specGtmExec` (the GTM manager as the spec describes it) would issue
a create call with no partition argument; the two differ. -/
theorem C8_counterexample_gtm_create_has_partition :
    (exec_module (fun _ => none) false
        ⟨"MyiRule", "Common", "gtm", some "when X", none, "present"⟩
        ⟨fun _ _ _ => none, true, true⟩).calls.filter ApiCall.isCreate =
      [ApiCall.create "gtm" "MyiRule" (some "Common") "when X"] ∧
    (specGtmExec (fun _ => none) false
        ⟨"MyiRule", "Common", "gtm", some "when X", none, "present"⟩
        ⟨fun _ _ _ => none, true, true⟩).calls.filter ApiCall.isCreate =
      [ApiCall.create "gtm" "MyiRule" none "when X"] ∧
    (some "Common" : Option String) ≠ none := by
  refine ⟨by decide, by decide, by decide⟩

/-- Witness for C10 at a concrete input: an absent-state run with a content
value, a src value and a total filesystem equals the run with neither and
an empty filesystem, raises no TypeError and no validation error, and
deletes the existing object with changed=true. -/
theorem C10_absent_ignores_content_witness :
    (exec_module (fun q => some q) false
        ⟨"MyiRule", "Common", "ltm", some "AAA", some "f.tcl", "absent"⟩
        ⟨fun _ _ _ => some "x", true, true⟩ =
      exec_module (fun _ => none) false
        ⟨"MyiRule", "Common", "ltm", none, none, "absent"⟩
        ⟨fun _ _ _ => some "x", true, true⟩) ∧
    ((exec_module (fun q => some q) false
        ⟨"MyiRule", "Common", "ltm", some "AAA", some "f.tcl", "absent"⟩
        ⟨fun _ _ _ => some "x", true, true⟩).res ≠
      .err (.typeError "coercing to Unicode: need string, NoneType found")) ∧
    ((exec_module (fun q => some q) false
        ⟨"MyiRule", "Common", "ltm", some "AAA", some "f.tcl", "absent"⟩
        ⟨fun _ _ _ => some "x", true, true⟩).res ≠
      .err (.f5 "Either \x27content\x27 or \x27src\x27 must be provided")) ∧
    ((exec_module (fun q => some q) false
        ⟨"MyiRule", "Common", "ltm", some "AAA", some "f.tcl", "absent"⟩
        ⟨fun _ _ _ => some "x", true, true⟩).res = .ok true) :=
  ⟨(C10_absent_ignores_content (fun q => some q) (fun _ => none) false "MyiRule" "Common" "ltm"
      (some "AAA") (some "f.tcl") none none ⟨fun _ _ _ => some "x", true, true⟩ (Or.inl rfl)).1,
   (C10_absent_ignores_content (fun q => some q) (fun _ => none) false "MyiRule" "Common" "ltm"
      (some "AAA") (some "f.tcl") none none ⟨fun _ _ _ => some "x", true, true⟩ (Or.inl rfl)).2.1
      "coercing to Unicode: need string, NoneType found",
   (C10_absent_ignores_content (fun q => some q) (fun _ => none) false "MyiRule" "Common" "ltm"
      (some "AAA") (some "f.tcl") none none ⟨fun _ _ _ => some "x", true, true⟩ (Or.inl rfl)).2.2.1,
   (C10_absent_ignores_content (fun q => some q) (fun _ => none) false "MyiRule" "Common" "ltm"
      (some "AAA") (some "f.tcl") none none ⟨fun _ _ _ => some "x", true, true⟩ (Or.inl rfl)).2.2.2
      rfl⟩

end BigIpIrule
